import Mathlib

/-!
Verification development for the layered CRUD user service
(repository → service → HTTP middleware), shallowly embedded from the Go
sources: the service layer (`internal/service/users.go`), the repository
layer (`internal/repository/users.go`) modelled over a list of table rows
with the schema's unique constraints, and the API-key middleware
(`internal/middleware/auth.go`).
-/

namespace Cruder

/-- Go `error` values as they occur in this code base: the sentinel
`sql.ErrNoRows`, values built by `errors.New(msg)`, and storage-driver
errors (for example a Postgres unique-constraint violation). The service
code only compares errors against `sql.ErrNoRows` by identity. -/
inductive GoError
  | sqlErrNoRows
  | errorsNew (msg : String)
  | storage (msg : String)
deriving DecidableEq

/-- The fixed message of the domain not-found error produced by the
service layer (`errors.New` in users.go). -/
def notFoundMsg : String := "users not found"

/-- The fixed message of the domain uniqueness-conflict error. -/
def existsMsg : String := "username already exists"

/-- Message of the 401 body of the API-key middleware. -/
def apiKeyRequiredMsg : String := "API key required"

/-- Message of the 403 body of the API-key middleware. -/
def invalidApiKeyMsg : String := "Invalid API key"

/-- A representative storage-driver error text for a violated unique
constraint, as the lib/pq driver reports it. -/
def uniqueViolationMsg : String := "pq: duplicate key value violates unique constraint"

/-- A representative infrastructure error text. -/
def connRefusedMsg : String := "connection refused"

/-- The empty string, as returned by gin's `GetHeader` for an absent header. -/
def emptyStr : String := ""

/-- The `model.User` record (internal/model/users.go). -/
structure User where
  id : Int
  uuid : String
  username : String
  email : String
  fullName : String
deriving DecidableEq

/-- A row of the `users` table: the five selected columns plus the
`created_at` column that the repository never reads or writes. -/
structure Row where
  id : Int
  uuid : String
  username : String
  email : String
  fullName : String
  createdAt : Int
deriving DecidableEq

/-- Projection of a table row to the `model.User` record, as performed by
the repository's `SELECT id, uuid, username, email, full_name` scans. -/
def rowToUser (r : Row) : User :=
  { id := r.id, uuid := r.uuid, username := r.username
  , email := r.email, fullName := r.fullName }

/-- The columns of a row that the Update statement never touches: numeric
id, public identifier, creation timestamp. -/
def rowKey (r : Row) : Int × String × Int :=
  (r.id, r.uuid, r.createdAt)

/-- The error value `some uniqueViolation` stands for the driver error a
violated unique constraint produces on INSERT or UPDATE. -/
def uniqueViolation : GoError := GoError.storage uniqueViolationMsg

/-- Repository `GetAll`: `SELECT` of every row in storage order. The Go
code accumulates into a nil slice (`var users []model.User`), so an empty
table yields the nil slice, modelled as `none`; the error result is `nil`. -/
def dbGetAll (db : List Row) : Option (List User) × Option GoError :=
  (db.foldl
    (fun acc r =>
      match acc with
      | none => some [rowToUser r]
      | some us => some (us ++ [rowToUser r]))
    none, none)

/-- Repository `GetByUsername`: `QueryRow ... WHERE username = $1`; the
first matching row, or `sql.ErrNoRows` when none matches. -/
def dbGetByUsername (db : List Row) (username : String) : Except GoError User :=
  match db.find? (fun r => r.username == username) with
  | some r => Except.ok (rowToUser r)
  | none => Except.error GoError.sqlErrNoRows

/-- Repository `GetByID`: `QueryRow ... WHERE id = $1`. -/
def dbGetByID (db : List Row) (id : Int) : Except GoError User :=
  match db.find? (fun r => r.id == id) with
  | some r => Except.ok (rowToUser r)
  | none => Except.error GoError.sqlErrNoRows

/-- Repository `GetByUUID`: `QueryRow ... WHERE uuid = $1`. -/
def dbGetByUUID (db : List Row) (uuid : String) : Except GoError User :=
  match db.find? (fun r => r.uuid == uuid) with
  | some r => Except.ok (rowToUser r)
  | none => Except.error GoError.sqlErrNoRows

/-- Repository `Create`: `INSERT INTO users (username, email, full_name)
... RETURNING id, uuid`. The store assigns the numeric id, the generated
uuid and the creation timestamp (modelled as the parameters `newId`,
`newUuid`, `now`); the insert fails with the driver's unique-violation
error when the schema's unique constraints (username, email, uuid) would
be violated, and otherwise appends the new row. -/
def dbInsert (db : List Row) (u : User) (newId : Int) (newUuid : String) (now : Int) :
    List Row × Option GoError :=
  if (∃ r ∈ db, r.username = u.username) ∨ (∃ r ∈ db, r.email = u.email) ∨
      (∃ r ∈ db, r.uuid = newUuid) then
    (db, some uniqueViolation)
  else
    (db ++ [{ id := newId, uuid := newUuid, username := u.username
            , email := u.email, fullName := u.fullName, createdAt := now }], none)

/-- Repository `Update`: `UPDATE users SET username = $1, email = $2,
full_name = $3 WHERE uuid = $4` via `ExecContext`, returning only the
execution error. The statement fails with the unique-violation error when
it would duplicate another row's username or email; otherwise it rewrites
the matching rows. The Go code never inspects `RowsAffected`, so matching
zero rows is a success. -/
def dbUpdate (db : List Row) (uuid : String) (u : User) : List Row × Option GoError :=
  if (∃ r ∈ db, r.uuid = uuid) ∧
      (∃ r ∈ db, r.uuid ≠ uuid ∧ (r.username = u.username ∨ r.email = u.email)) then
    (db, some uniqueViolation)
  else
    (db.map (fun r =>
      if r.uuid = uuid then
        { r with username := u.username, email := u.email, fullName := u.fullName }
      else r), none)

/-- Repository `Delete`: `DELETE FROM users WHERE uuid = $1`, then
`RowsAffected`; zero affected rows is reported as `sql.ErrNoRows`. -/
def dbDelete (db : List Row) (uuid : String) : List Row × Option GoError :=
  let remaining := db.filter (fun r => r.uuid ≠ uuid)
  if remaining.length = db.length then (db, some GoError.sqlErrNoRows)
  else (remaining, none)

/-! Service-layer function bodies (internal/service/users.go), embedded
parametrically in the results of the repository calls they make: each Go
repository call becomes one argument holding that call's result, so the
definitions mirror the control flow of the Go bodies exactly. -/

/-- Body of `userService.GetByUsername`: translate `sql.ErrNoRows` into
the domain not-found error, pass any other error through. -/
def svcGetByUsername (res : Except GoError User) : Except GoError User :=
  match res with
  | Except.error e =>
      if e = GoError.sqlErrNoRows then Except.error (GoError.errorsNew notFoundMsg)
      else Except.error e
  | Except.ok u => Except.ok u

/-- Body of `userService.GetByID`: same translation as `GetByUsername`. -/
def svcGetByID (res : Except GoError User) : Except GoError User :=
  match res with
  | Except.error e =>
      if e = GoError.sqlErrNoRows then Except.error (GoError.errorsNew notFoundMsg)
      else Except.error e
  | Except.ok u => Except.ok u

/-- Body of `userService.GetByUUID`: same translation again. -/
def svcGetByUUID (res : Except GoError User) : Except GoError User :=
  match res with
  | Except.error e =>
      if e = GoError.sqlErrNoRows then Except.error (GoError.errorsNew notFoundMsg)
      else Except.error e
  | Except.ok u => Except.ok u

/-- Body of `userService.Create`:
`existingUser, _ := s.repo.GetByUsername(user.Username)` discards the
lookup error; `if existingUser != nil` returns the conflict error;
otherwise the result of `s.repo.Create(user)` is returned unchanged. -/
def svcCreate (lookupByName : Except GoError User) (insertResult : Option GoError) :
    Option GoError :=
  match lookupByName with
  | Except.ok _ => some (GoError.errorsNew existsMsg)
  | Except.error _ => insertResult

/-- Body of `userService.Update`: resolve the target by uuid (translating
`sql.ErrNoRows`, passing other errors); when the incoming username
differs from the current one, look it up (discarding the lookup error)
and fail with the conflict error if a user with a different uuid holds
it; otherwise return the result of `s.repo.Update(uuid, user)`. -/
def svcUpdate (uuid : String) (u : User) (lookupByUUID : Except GoError User)
    (lookupByName : Except GoError User) (updateResult : Option GoError) :
    Option GoError :=
  match lookupByUUID with
  | Except.error e =>
      if e = GoError.sqlErrNoRows then some (GoError.errorsNew notFoundMsg)
      else some e
  | Except.ok existing =>
      if u.username ≠ existing.username then
        match lookupByName with
        | Except.ok byName =>
            if byName.uuid ≠ uuid then some (GoError.errorsNew existsMsg)
            else updateResult
        | Except.error _ => updateResult
      else updateResult

/-- Body of `userService.Delete`: translate `sql.ErrNoRows` from the
repository delete, pass other errors, succeed otherwise. -/
def svcDelete (res : Option GoError) : Option GoError :=
  match res with
  | some e =>
      if e = GoError.sqlErrNoRows then some (GoError.errorsNew notFoundMsg)
      else some e
  | none => none

/-! The same service bodies composed with the SQL-model repository,
threading the table state. -/

/-- `userService.GetAll` is a plain pass-through of the repository call. -/
def serviceGetAllState (db : List Row) : Option (List User) × Option GoError :=
  dbGetAll db

/-- `userService.Create` over the table state. -/
def serviceCreateState (db : List Row) (u : User) (newId : Int) (newUuid : String)
    (now : Int) : List Row × Option GoError :=
  match dbGetByUsername db u.username with
  | Except.ok _ => (db, some (GoError.errorsNew existsMsg))
  | Except.error _ => dbInsert db u newId newUuid now

/-- `userService.Update` over the table state. -/
def serviceUpdateState (db : List Row) (uuid : String) (u : User) :
    List Row × Option GoError :=
  match dbGetByUUID db uuid with
  | Except.error e =>
      (db, if e = GoError.sqlErrNoRows then some (GoError.errorsNew notFoundMsg)
           else some e)
  | Except.ok existing =>
      if u.username ≠ existing.username then
        match dbGetByUsername db u.username with
        | Except.ok byName =>
            if byName.uuid ≠ uuid then (db, some (GoError.errorsNew existsMsg))
            else dbUpdate db uuid u
        | Except.error _ => dbUpdate db uuid u
      else dbUpdate db uuid u

/-- `userService.Delete` over the table state. -/
def serviceDeleteState (db : List Row) (uuid : String) : List Row × Option GoError :=
  match dbDelete db uuid with
  | (db2, some e) =>
      (db2, if e = GoError.sqlErrNoRows then some (GoError.errorsNew notFoundMsg)
            else some e)
  | (db2, none) => (db2, none)

/-! JSON values, for what the routes serialize. -/

/-- A minimal JSON value type; `null` is what Go's encoding/json produces
for a nil slice, `arr` for a non-nil slice. -/
inductive Json
  | null
  | str (s : String)
  | num (n : Int)
  | arr (xs : List Json)
  | obj (fields : List (String × Json))

/-- JSON object of one user, per the struct tags of `model.User`. -/
def userToJson (u : User) : Json :=
  Json.obj
    [ ("id", Json.num u.id), ("uuid", Json.str u.uuid)
    , ("username", Json.str u.username), ("email", Json.str u.email)
    , ("full_name", Json.str u.fullName) ]

/-- Modelled from the spec: the request-layer controller source is absent
from the repository snapshot (only its callers and tests are present).
Per the spec, the List route serializes the users returned by GetAll as
"a JSON array (empty array if none)", so the nil slice is rendered as the
empty array, never as JSON null. -/
def controllerListBody (slice : Option (List User)) : Json :=
  Json.arr ((Option.getD slice []).map userToJson)

/-! The API-key middleware (internal/middleware/auth.go). -/

/-- Outcome of the middleware for one request: either a short-circuiting
rejection (`c.JSON(status, body); c.Abort()`) with the given status and
error-body message, or passing the request through (`c.Next()`). -/
inductive AuthDecision
  | reject (status : Nat) (errorBody : String)
  | proceed
deriving DecidableEq

/-- Gin's `c.GetHeader`: the header value, or the empty string when the
header is absent from the request. -/
def getHeader (header : Option String) : String :=
  Option.getD header emptyStr

/-- `APIKeyAuth(validAPIKey)` applied to a request whose `X-API-Key`
header is `header` (`none` when absent): empty extracted value → 401,
mismatch → 403, match → pass through. -/
def apiKeyAuth (validAPIKey : String) (header : Option String) : AuthDecision :=
  let apiKey := getHeader header
  if apiKey = emptyStr then AuthDecision.reject 401 apiKeyRequiredMsg
  else if apiKey ≠ validAPIKey then AuthDecision.reject 403 invalidApiKeyMsg
  else AuthDecision.proceed

/-! Concrete sample data used by witnesses. -/

/-- Sample uuid of the stored row. -/
def uuidOne : String := "u-1"

/-- A uuid matching no stored row. -/
def uuidMissing : String := "missing-uuid"

/-- Sample stored username. -/
def aliceName : String := "alice"

/-- Sample stored email. -/
def aliceEmail : String := "alice@example.com"

/-- Sample stored full name. -/
def aliceFull : String := "Alice A"

/-- Sample incoming username. -/
def bobName : String := "bob"

/-- Sample incoming email. -/
def bobEmail : String := "bob@example.com"

/-- Sample incoming full name. -/
def bobFull : String := "Bob B"

/-- Sample configured API-key secret. -/
def secretKey : String := "dev-api-key-12345"

/-- Sample wrong API-key header value. -/
def wrongKey : String := "wrong-key"

/-- A stored table row. -/
def aliceRow : Row :=
  { id := 1, uuid := uuidOne, username := aliceName, email := aliceEmail
  , fullName := aliceFull, createdAt := 100 }

/-- The stored row as the repository returns it. -/
def aliceUser : User := rowToUser aliceRow

/-- An incoming payload with a fresh username. -/
def bobUser : User :=
  { id := 0, uuid := emptyStr, username := bobName, email := bobEmail
  , fullName := bobFull }

/-- An incoming payload reusing the stored username. -/
def aliceClone : User :=
  { id := 0, uuid := emptyStr, username := aliceName, email := bobEmail
  , fullName := bobFull }

/-- Sample uuid of a second stored row. -/
def uuidTwo : String := "u-2"

/-- A second stored user, holding the incoming username under a different
public identifier. -/
def bobStoredUser : User :=
  { id := 2, uuid := uuidTwo, username := bobName, email := bobEmail
  , fullName := bobFull }

/-- The stored row after a successful Update with the payload `bobUser`:
mutable columns replaced, id, uuid and creation timestamp kept. -/
def bobRowUpdated : Row :=
  { id := 1, uuid := uuidOne, username := bobName, email := bobEmail
  , fullName := bobFull, createdAt := 100 }

/-- Claim C1: for a Create whose username pre-check finds no existing user
but whose Insert fails on the storage-level uniqueness constraint, the
business layer is claimed to return the domain error "username already
exists". The embedded `userService.Create` body instead returns the raw
storage error unchanged: with the pre-check yielding `sql.ErrNoRows` and
the insert yielding the driver's unique-violation error, Create returns
that storage error and not the domain conflict error. -/
theorem create_constraint_violation_leaks_storage_error :
    svcCreate (Except.error GoError.sqlErrNoRows) (some uniqueViolation) =
      some uniqueViolation ∧
    svcCreate (Except.error GoError.sqlErrNoRows) (some uniqueViolation) ≠
      some (GoError.errorsNew existsMsg) := by
  refine ⟨rfl, ?_⟩
  decide

/-- Claim C2 counterexample: repository Update on a public identifier
matching no row is claimed to return `sql.ErrNoRows`; on the empty table
it instead returns success (`nil` error) with the table unchanged. -/
theorem update_missing_counterexample :
    dbUpdate [] uuidMissing bobUser = ([], none) ∧
    (dbUpdate [] uuidMissing bobUser).2 ≠ some GoError.sqlErrNoRows := by
  decide

/-- Claim C2 (amended): for every public identifier that matches no row,
repository Update returns success (`nil` error) and leaves the table
unchanged; it never surfaces the no-rows signal (unlike Delete, which
checks the affected-row count). -/
theorem update_missing_uuid_returns_success (db : List Row) (uuid : String)
    (u : User) (h : ∀ r ∈ db, r.uuid ≠ uuid) :
    dbUpdate db uuid u = (db, none) := by
  unfold dbUpdate
  rw [if_neg]
  · have hmap : db.map (fun r =>
        if r.uuid = uuid then
          { r with username := u.username, email := u.email, fullName := u.fullName }
        else r) = db.map id := by
      apply List.map_congr_left
      intro r hr
      rw [if_neg (h r hr)]
      rfl
    rw [hmap, List.map_id]
  · rintro ⟨⟨r, hr, hru⟩, -⟩
    exact h r hr hru

/-- Claim C2 witness: the amended statement applied to a one-row table
and a uuid it does not contain. -/
theorem update_missing_uuid_returns_success_witness :
    dbUpdate [aliceRow] uuidMissing bobUser = ([aliceRow], none) :=
  update_missing_uuid_returns_success [aliceRow] uuidMissing bobUser (by decide)

/-- Claim C3: for every Create whose username equals the username of a
stored user, the business layer returns the domain error "username
already exists", the table is unchanged, and the persistence Insert is
never called (the result of `userService.Create` after a successful
pre-check lookup does not depend on the insert's result). -/
theorem create_duplicate_username_rejected (db : List Row) (u : User)
    (newId : Int) (newUuid : String) (now : Int)
    (h : ∃ r ∈ db, r.username = u.username) :
    serviceCreateState db u newId newUuid now =
      (db, some (GoError.errorsNew existsMsg)) ∧
    (∀ w : User, ∀ ins ins' : Option GoError,
      svcCreate (Except.ok w) ins = svcCreate (Except.ok w) ins') := by
  constructor
  · obtain ⟨r, hr, hname⟩ := h
    have hsome : (db.find? (fun r => r.username == u.username)).isSome :=
      List.find?_isSome.mpr ⟨r, hr, by simp [hname]⟩
    obtain ⟨r2, hf⟩ := Option.isSome_iff_exists.mp hsome
    unfold serviceCreateState dbGetByUsername
    rw [hf]
  · intro w ins ins'
    rfl

/-- Claim C3 witness: creating a second "alice" against a table holding
one row named "alice" fails with the conflict error and changes nothing. -/
theorem create_duplicate_username_rejected_witness :
    serviceCreateState [aliceRow] aliceClone 2 uuidTwo 200 =
      ([aliceRow], some (GoError.errorsNew existsMsg)) :=
  (create_duplicate_username_rejected [aliceRow] aliceClone 2 uuidTwo 200
    (by decide)).1

/-- Claim C4: for every Update on an existing public identifier: when the
incoming username equals the current row's username the uniqueness lookup
is not consulted (the result equals the repository update's result for
every possible lookup outcome); when it differs, Update fails with
"username already exists" exactly when the lookup finds a user whose
public identifier differs from the one being updated, and otherwise
returns the repository update's result. -/
theorem update_uniqueness_check_exact (uuid : String) (u existing : User)
    (byName : Except GoError User) (upd : Option GoError) :
    (u.username = existing.username →
      svcUpdate uuid u (Except.ok existing) byName upd = upd) ∧
    (u.username ≠ existing.username →
      ((∃ w, byName = Except.ok w ∧ w.uuid ≠ uuid) →
        svcUpdate uuid u (Except.ok existing) byName upd =
          some (GoError.errorsNew existsMsg)) ∧
      ((∀ w, byName = Except.ok w → w.uuid = uuid) →
        svcUpdate uuid u (Except.ok existing) byName upd = upd)) := by
  refine ⟨fun heq => ?_, fun hne => ⟨fun hconf => ?_, fun hsame => ?_⟩⟩
  · simp [svcUpdate, heq]
  · obtain ⟨w, hw, hwuuid⟩ := hconf
    rw [hw]
    simp [svcUpdate, hne, hwuuid]
  · cases byName with
    | ok w =>
      have hww : w.uuid = uuid := hsame w rfl
      simp [svcUpdate, hne, hww]
    | error e =>
      simp [svcUpdate, hne]

/-- Claim C4 witness: the three branches at concrete inputs — same
username (lookup result irrelevant), changed username held by a row with
another uuid (conflict), changed username found nowhere (proceed). -/
theorem update_uniqueness_check_exact_witness :
    svcUpdate uuidOne aliceClone (Except.ok aliceUser)
      (Except.error GoError.sqlErrNoRows) none = none ∧
    svcUpdate uuidOne bobUser (Except.ok aliceUser)
      (Except.ok bobStoredUser) none = some (GoError.errorsNew existsMsg) ∧
    svcUpdate uuidOne bobUser (Except.ok aliceUser)
      (Except.error GoError.sqlErrNoRows) none = none :=
  ⟨(update_uniqueness_check_exact uuidOne aliceClone aliceUser
      (Except.error GoError.sqlErrNoRows) none).1 (by decide),
   ((update_uniqueness_check_exact uuidOne bobUser aliceUser
      (Except.ok bobStoredUser) none).2 (by decide)).1
     ⟨bobStoredUser, rfl, by decide⟩,
   ((update_uniqueness_check_exact uuidOne bobUser aliceUser
      (Except.error GoError.sqlErrNoRows) none).2 (by decide)).2
     (fun w h => nomatch h)⟩

/-- Claim C5: whenever the persistence layer yields `sql.ErrNoRows`, each
of the five business operations GetByUsername, GetByID, GetByUUID, Update
and Delete returns the domain not-found error with the one fixed message
"users not found". For Update both persistence calls are covered: the
uuid lookup triggers the translation, and the repository update statement
itself can never yield `sql.ErrNoRows` (it does not inspect the
affected-row count). -/
theorem notfound_translation_uniform (db : List Row) (name : String)
    (idv : Int) (uuid : String) (u : User) :
    (dbGetByUsername db name = Except.error GoError.sqlErrNoRows →
      svcGetByUsername (dbGetByUsername db name) =
        Except.error (GoError.errorsNew notFoundMsg)) ∧
    (dbGetByID db idv = Except.error GoError.sqlErrNoRows →
      svcGetByID (dbGetByID db idv) =
        Except.error (GoError.errorsNew notFoundMsg)) ∧
    (dbGetByUUID db uuid = Except.error GoError.sqlErrNoRows →
      svcGetByUUID (dbGetByUUID db uuid) =
        Except.error (GoError.errorsNew notFoundMsg)) ∧
    (dbGetByUUID db uuid = Except.error GoError.sqlErrNoRows →
      (serviceUpdateState db uuid u).2 = some (GoError.errorsNew notFoundMsg)) ∧
    ((dbUpdate db uuid u).2 ≠ some GoError.sqlErrNoRows) ∧
    ((dbDelete db uuid).2 = some GoError.sqlErrNoRows →
      (serviceDeleteState db uuid).2 = some (GoError.errorsNew notFoundMsg)) := by
  refine ⟨fun h => ?_, fun h => ?_, fun h => ?_, fun h => ?_, ?_, fun h => ?_⟩
  · rw [h]; rfl
  · rw [h]; rfl
  · rw [h]; rfl
  · unfold serviceUpdateState
    rw [h]
    rfl
  · unfold dbUpdate
    split
    · simp [uniqueViolation]
    · simp
  · unfold serviceDeleteState
    cases hd : dbDelete db uuid with
    | mk db2 e =>
      rw [hd] at h
      have he : e = some GoError.sqlErrNoRows := h
      subst he
      rfl

/-- Claim C5 witness: on the empty table every lookup yields the no-rows
signal and each of the five operations answers "users not found". -/
theorem notfound_translation_uniform_witness :
    svcGetByUsername (dbGetByUsername [] bobName) =
      Except.error (GoError.errorsNew notFoundMsg) ∧
    svcGetByID (dbGetByID [] 7) =
      Except.error (GoError.errorsNew notFoundMsg) ∧
    svcGetByUUID (dbGetByUUID [] uuidMissing) =
      Except.error (GoError.errorsNew notFoundMsg) ∧
    (serviceUpdateState [] uuidMissing bobUser).2 =
      some (GoError.errorsNew notFoundMsg) ∧
    (serviceDeleteState [] uuidMissing).2 =
      some (GoError.errorsNew notFoundMsg) :=
  have t := notfound_translation_uniform [] bobName 7 uuidMissing bobUser
  ⟨t.1 rfl, t.2.1 rfl, t.2.2.1 rfl, t.2.2.2.1 rfl, t.2.2.2.2.2 rfl⟩

/-- Claim C6 counterexample: the claim states that a present header not
equal to the secret is answered 403; a request whose `X-API-Key` header
is present with the empty string as value (extracted by `GetHeader` as
the empty string) is answered 401 instead. -/
theorem auth_empty_value_counterexample :
    apiKeyAuth secretKey (some emptyStr) =
      AuthDecision.reject 401 apiKeyRequiredMsg ∧
    apiKeyAuth secretKey (some emptyStr) ≠
      AuthDecision.reject 403 invalidApiKeyMsg := by
  decide

/-- Claim C6 (amended): for every configured secret, a request whose
header is absent or present with the empty value is answered 401 with
"API key required" and short-circuited; a request with a nonempty value
different from the secret is answered 403 with "Invalid API key" and
short-circuited; a request with a nonempty value equal to the secret
passes through. -/
theorem auth_gate_cases (secret : String) (h : Option String) :
    ((h = none ∨ h = some emptyStr) →
      apiKeyAuth secret h = AuthDecision.reject 401 apiKeyRequiredMsg) ∧
    (∀ v, h = some v → v ≠ emptyStr → v ≠ secret →
      apiKeyAuth secret h = AuthDecision.reject 403 invalidApiKeyMsg) ∧
    (∀ v, h = some v → v ≠ emptyStr → v = secret →
      apiKeyAuth secret h = AuthDecision.proceed) := by
  refine ⟨fun habs => ?_, fun v hv hne hns => ?_, fun v hv hne hs => ?_⟩
  · rcases habs with rfl | rfl <;> rfl
  · subst hv
    simp [apiKeyAuth, getHeader, hne, hns]
  · subst hv
    subst hs
    simp [apiKeyAuth, getHeader, hne]

/-- Claim C6 witness: the three amended branches at concrete inputs:
absent header, wrong nonempty key, correct key. -/
theorem auth_gate_cases_witness :
    apiKeyAuth secretKey none = AuthDecision.reject 401 apiKeyRequiredMsg ∧
    apiKeyAuth secretKey (some wrongKey) =
      AuthDecision.reject 403 invalidApiKeyMsg ∧
    apiKeyAuth secretKey (some secretKey) = AuthDecision.proceed :=
  ⟨(auth_gate_cases secretKey none).1 (Or.inl rfl),
   (auth_gate_cases secretKey (some wrongKey)).2.1 wrongKey rfl
     (by decide) (by decide),
   (auth_gate_cases secretKey (some secretKey)).2.2 secretKey rfl
     (by decide) rfl⟩

/-- The Update statement, succeed or fail, preserves each row's id, uuid
and creation timestamp (positionally). -/
theorem dbUpdate_preserves_rowKey (db : List Row) (uuid : String) (u : User) :
    ((dbUpdate db uuid u).1).map rowKey = db.map rowKey := by
  unfold dbUpdate
  split
  · rfl
  · rw [List.map_map]
    apply List.map_congr_left
    intro r hr
    by_cases hc : r.uuid = uuid
    · simp [Function.comp, hc, rowKey]
    · simp [Function.comp, hc]

/-- Claim C7: every Update call leaves the numeric identifier, the public
identifier and the creation timestamp of every row (in particular the
targeted one) unchanged, and on a successful repository Update the
targeted row carries exactly the incoming username, email and full
name — so only those three columns are replaced. -/
theorem update_preserves_identifiers (db : List Row) (uuid : String) (u : User) :
    ((serviceUpdateState db uuid u).1).map rowKey = db.map rowKey ∧
    (∀ r', r' ∈ (dbUpdate db uuid u).1 → (dbUpdate db uuid u).2 = none →
      r'.uuid = uuid →
      r'.username = u.username ∧ r'.email = u.email ∧ r'.fullName = u.fullName) := by
  constructor
  · unfold serviceUpdateState
    repeat' split
    all_goals first
      | rfl
      | exact dbUpdate_preserves_rowKey db uuid u
  · unfold dbUpdate
    split
    · intro r' hmem hnone huuid
      simp at hnone
    · intro r' hmem hnone huuid
      rw [List.mem_map] at hmem
      obtain ⟨r, hr, hfr⟩ := hmem
      by_cases hc : r.uuid = uuid
      · subst hfr
        simp [hc]
      · subst hfr
        rw [if_neg hc] at huuid
        exact absurd huuid hc

/-- Claim C7 witness: updating the stored "alice" row with the "bob"
payload keeps id, uuid and creation timestamp and replaces the three
mutable columns. -/
theorem update_preserves_identifiers_witness :
    ((serviceUpdateState [aliceRow] uuidOne bobUser).1).map rowKey =
      [aliceRow].map rowKey ∧
    (bobRowUpdated.username = bobUser.username ∧
     bobRowUpdated.email = bobUser.email ∧
     bobRowUpdated.fullName = bobUser.fullName) :=
  ⟨(update_preserves_identifiers [aliceRow] uuidOne bobUser).1,
   (update_preserves_identifiers [aliceRow] uuidOne bobUser).2 bobRowUpdated
     (by decide) (by decide) rfl⟩

/-- Claim C8: on the empty table the repository GetAll succeeds with the
empty (nil) sequence and no error, the service passes it through, the
List route's body (modelled from the spec, the controller source being
absent) is the JSON array `[]` and not JSON null; and GetAll never
returns an error for any table. -/
theorem getall_empty_table_empty_array :
    dbGetAll [] = (none, none) ∧
    serviceGetAllState [] = (none, none) ∧
    controllerListBody (serviceGetAllState []).1 = Json.arr [] ∧
    controllerListBody (serviceGetAllState []).1 ≠ Json.null ∧
    (∀ db : List Row, (dbGetAll db).2 = none) :=
  ⟨rfl, rfl, rfl, fun hc => Json.noConfusion hc, fun _ => rfl⟩

/-- Claim C9 counterexample: the claim states no persistence error is
discarded so that the operation continues or reports success; the
username pre-check lookup inside `userService.Create` discards its error,
so with the lookup failing on an infrastructure error (not the no-rows
sentinel) and the insert succeeding, Create reports success. -/
theorem create_precheck_error_dropped :
    svcCreate (Except.error (GoError.storage connRefusedMsg)) none = none ∧
    GoError.storage connRefusedMsg ≠ GoError.sqlErrNoRows := by
  decide

/-- Claim C9 (amended): the business layer reclassifies or passes through
every error of the primary persistence call of each operation, but the
username pre-check lookup errors inside Create and Update are silently
discarded: the operation proceeds as if the username were free. -/
theorem error_propagation_policy (e : GoError) (ins upd : Option GoError)
    (uuid : String) (u existing : User) (byName : Except GoError User) :
    (svcCreate (Except.error e) ins = ins) ∧
    (u.username ≠ existing.username →
      svcUpdate uuid u (Except.ok existing) (Except.error e) upd = upd) ∧
    (e ≠ GoError.sqlErrNoRows →
      svcGetByUsername (Except.error e) = Except.error e ∧
      svcGetByID (Except.error e) = Except.error e ∧
      svcGetByUUID (Except.error e) = Except.error e ∧
      svcUpdate uuid u (Except.error e) byName upd = some e ∧
      svcDelete (some e) = some e) := by
  refine ⟨rfl, fun hne => ?_, fun hno => ?_⟩
  · simp [svcUpdate, hne]
  · refine ⟨?_, ?_, ?_, ?_, ?_⟩ <;>
      simp [svcGetByUsername, svcGetByID, svcGetByUUID, svcUpdate, svcDelete, hno]

/-- Claim C9 witness: with the pre-check lookup failing on "connection
refused", Create returns the insert's success and Update proceeds to the
repository update; a direct infrastructure error from Delete passes
through unchanged. -/
theorem error_propagation_policy_witness :
    svcCreate (Except.error (GoError.storage connRefusedMsg)) none = none ∧
    svcUpdate uuidOne bobUser (Except.ok aliceUser)
      (Except.error (GoError.storage connRefusedMsg)) none = none ∧
    svcDelete (some (GoError.storage connRefusedMsg)) =
      some (GoError.storage connRefusedMsg) :=
  have t := error_propagation_policy (GoError.storage connRefusedMsg) none none
    uuidOne bobUser aliceUser (Except.error GoError.sqlErrNoRows)
  ⟨t.1, t.2.1 (by decide), (t.2.2 (by decide)).2.2.2.2⟩

/-- Claim C10: for every configured secret, a request carrying the
`X-API-Key` header with the empty string as value is answered 401 "API
key required", indistinguishable from a request without the header; and
when the configured secret is the empty string no request ever passes
through: every request is answered 401 or 403. -/
theorem empty_api_key_never_passes (secret : String) (h : Option String) :
    apiKeyAuth secret (some emptyStr) =
      AuthDecision.reject 401 apiKeyRequiredMsg ∧
    apiKeyAuth secret none = AuthDecision.reject 401 apiKeyRequiredMsg ∧
    apiKeyAuth secret (some emptyStr) = apiKeyAuth secret none ∧
    (apiKeyAuth emptyStr h = AuthDecision.reject 401 apiKeyRequiredMsg ∨
     apiKeyAuth emptyStr h = AuthDecision.reject 403 invalidApiKeyMsg) := by
  refine ⟨rfl, rfl, rfl, ?_⟩
  cases h with
  | none => exact Or.inl rfl
  | some v =>
    by_cases hv : v = emptyStr
    · subst hv
      exact Or.inl rfl
    · right
      simp [apiKeyAuth, getHeader, hv]

end Cruder
